import Mathlib

/-!
Shallow embedding of the robots-txt-tester harness (src/main.rs).

The program loads a CSV file of test cases (user-agent, url, expected boolean),
builds a texting_robots Robot for the fixed user agent "googlebot" from the
robots.txt content, evaluates every test case in parallel, prints summary
counts, optionally writes a JUnit XML report, and exits with a failure status
when any test failed or the test-case file could not be loaded.

External dependencies are modelled as follows, from their documented behavior:
- texting_robots::Robot (the Policy Decision Port, an external collaborator):
  an abstract policy semantics `policy : String → String → Bool` giving, for a
  user agent and a URL, whether access is allowed; Robot::new(agent, content)
  fixes the agent, Robot::allowed(url) queries it.
- csv::Reader::from_reader with default settings: has_headers = true, so the
  first record of the file is consumed as a header and never yielded by
  records(); flexible = false, so a record whose field count differs from the
  header is yielded as an UnequalLengths error. The raw byte-level CSV
  tokenization (quoting, separators) is abstracted: a file is modelled as the
  list of its records, each a list of field strings.
- lenient_bool::LenientBool FromStr: case-insensitive parsing of common
  boolean spellings (true/false, t/f, yes/no, y/n, 1/0).
- rayon par_iter().map().collect(): an order-preserving map over the input
  (rayon indexed parallel collect preserves input order), modelled as List.map.
- A Rust panic (unwrap/index out of bounds) aborts the process; it is modelled
  as a distinct `panicked` result, not as a returned error value.
-/

namespace RobotsTxtTester

/-- One row of the test-case file (struct TestCaseDefinition, main.rs 131-135). -/
structure TestCaseDefinition where
  user_agent : String
  url : String
  expected_result : Bool
deriving DecidableEq

/-- The per-case evaluation result (struct TestCaseOutput, main.rs 137-142).
The field `result` is the passed flag: the code stores only the comparison
`matcher_result == expected_result`, not the raw decision. -/
structure TestCaseOutput where
  user_agent : String
  url : String
  expected_result : Bool
  result : Bool
deriving DecidableEq

/-- The Policy Decision Port: texting_robots::Robot, an external collaborator.
Only its query function is visible to the harness. -/
structure Robot where
  allowed : String → Bool

/-- Robot::new(agent, content) (main.rs 34): constructs the matcher for one
fixed user agent over the policy semantics of the robots.txt content. The
content itself is abstracted into `policy agent url`. -/
def Robot.new (agent : String) (policy : String → String → Bool) : Robot :=
  ⟨fun url => policy agent url⟩

/-- The body of the parallel map (main.rs 45-54): the decision is
`r.allowed(&test.url)`; the stored `result` is the passed flag. -/
def evalCase (r : Robot) (test : TestCaseDefinition) : TestCaseOutput :=
  let matcher_result := r.allowed test.url
  { result := matcher_result == test.expected_result
    expected_result := test.expected_result
    url := test.url
    user_agent := test.user_agent }

/-- test_cases.par_iter().map(...).collect() (main.rs 44-55); rayon indexed
parallel collect preserves input order. -/
def runTests (r : Robot) (test_cases : List TestCaseDefinition) : List TestCaseOutput :=
  test_cases.map (evalCase r)

/-- Aggregator (main.rs 72): `test_results.len()`. -/
def total_test_count (outs : List TestCaseOutput) : Nat := outs.length

/-- Aggregator (main.rs 73): `test_results.par_iter().filter(|n| n.result).count()`. -/
def passed_test_count (outs : List TestCaseOutput) : Nat :=
  (outs.filter (fun o => o.result)).length

/-- Aggregator (main.rs 74): `total_test_count - passed_test_count` (usize). -/
def failed_test_count (outs : List TestCaseOutput) : Nat :=
  total_test_count outs - passed_test_count outs

/-- String::to_lowercase restricted to the per-character mapping (the boolean
tokens involved are ASCII, where both agree). -/
def toLowerStr (s : String) : String := ⟨s.data.map Char.toLower⟩

/-- lenient_bool::LenientBool FromStr (external crate, modelled from its
documentation): case-insensitive true/false, t/f, yes/no, y/n, 1/0; anything
else fails. `none` is the parse failure. -/
def parseLenientBool (s : String) : Option Bool :=
  let t := toLowerStr s
  if t = "true" ∨ t = "t" ∨ t = "yes" ∨ t = "y" ∨ t = "1" then some true
  else if t = "false" ∨ t = "f" ∨ t = "no" ∨ t = "n" ∨ t = "0" then some false
  else none

/-- The load errors get_test_cases can return as values (Box dyn Error in the
code): a file-read error propagated by the first `?` (main.rs 145), or a csv
UnequalLengths record error propagated by `let record = result?` (main.rs 151). -/
inductive LoadErr where
  | ioError
  | malformedRow
deriving DecidableEq

/-- Result of get_test_cases, with `panicked` for the two paths that abort the
process instead of returning: out-of-bounds field indexing record[0..2], and
`.parse::<LenientBool>().unwrap()` on an unparseable third field (main.rs 156). -/
inductive LoadResult where
  | ok (defs : List TestCaseDefinition)
  | err (e : LoadErr)
  | panicked
deriving DecidableEq

/-- The record loop of get_test_cases (main.rs 150-161), after the csv reader
consumed the first record as the header. `headerLen` is the field count of the
header; a record with a different count is an UnequalLengths error (csv
flexible = false). A record with fewer than three fields panics at record[0],
record[1] or record[2]; an unparseable third field panics at unwrap. -/
def parseRecords (headerLen : Nat) : List (List String) → LoadResult
  | [] => .ok []
  | record :: rest =>
    if record.length ≠ headerLen then .err .malformedRow
    else if record.length < 3 then .panicked
    else
      match parseLenientBool (record.getD 2 "") with
      | none => .panicked
      | some b =>
        match parseRecords headerLen rest with
        | .ok defs =>
          .ok ({ user_agent := record.getD 0 ""
                 url := record.getD 1 ""
                 expected_result := b } :: defs)
        | r => r

/-- get_test_cases (main.rs 144-163). `none` content models an unreadable file
(fs::read_to_string fails, main.rs 145). An empty file has no header and no
records; otherwise the first record is the header (csv has_headers = true) and
the remaining records are parsed. -/
def get_test_cases (content : Option (List (List String))) : LoadResult :=
  match content with
  | none => .err .ioError
  | some [] => .ok []
  | some (header :: records) => parseRecords header.length records

/-- std::process::ExitCode as used by main: SUCCESS or FAILURE. -/
inductive ExitCode where
  | success
  | failure
deriving DecidableEq

/-- How a run of main ends: a graceful exit with an ExitCode, or a process
abort through a panic. -/
inductive RunResult where
  | exited (code : ExitCode)
  | panicked
deriving DecidableEq

/-- The harness pipeline of main (main.rs 29-86), policy construction
abstracted (the robots.txt read and Robot::new happen before the test-case
load; both panic on their own failures, which the spec rules a caller-level
precondition, out of scope). A load error is printed and main returns
ExitCode::FAILURE (main.rs 36-42); otherwise the cases are evaluated and the
exit code is FAILURE exactly when failed_test_count is positive (main.rs 83). -/
def runHarness (content : Option (List (List String)))
    (policy : String → String → Bool) : RunResult :=
  let r := Robot.new "googlebot" policy
  match get_test_cases content with
  | .err _ => .exited .failure
  | .panicked => .panicked
  | .ok test_cases =>
    let test_results := runTests r test_cases
    if failed_test_count test_results > 0 then .exited .failure
    else .exited .success

/-- Whether a run ends with a failing process status: a graceful FAILURE exit,
or a panic (a panicking process terminates with a nonzero status). -/
def exit_is_failure : RunResult → Bool
  | .exited .failure => true
  | .panicked => true
  | .exited .success => false

/-- Whether get_test_cases fails to produce the definitions (a returned error
or a panic). -/
def load_failed (content : Option (List (List String))) : Bool :=
  match get_test_cases content with
  | .ok _ => false
  | _ => true

/-- The failed count of a run whose load succeeded, and 0 otherwise. -/
def run_failed_count (content : Option (List (List String)))
    (policy : String → String → Bool) : Nat :=
  match get_test_cases content with
  | .ok defs => failed_test_count (runTests (Robot.new "googlebot" policy) defs)
  | _ => 0

/-- One entry of the JUnit report (junit_report TestCase, external crate):
either TestCaseBuilder::success(name, duration) or
TestCase::failure(name, duration, type, message), durations in whole seconds. -/
inductive ReportEntry where
  | success (name : String) (durationSeconds : Int)
  | failure (name : String) (durationSeconds : Int) (kind : String) (message : String)
deriving DecidableEq

/-- get_test_case_name (main.rs 125-128). -/
def get_test_case_name (result : TestCaseOutput) : String :=
  let expected_result_label := if result.expected_result then "allowed" else "denied"
  "Accessing URL: " ++ result.url ++ " as " ++ result.user_agent ++ " should be "
    ++ expected_result_label

/-- The entry-building loop of generate_test_report (main.rs 90-109): one entry
per outcome, in order; a success entry with zero duration for a passing
outcome, a failure entry with kind assert_eq and message not-equal otherwise. -/
def generate_test_report : List TestCaseOutput → List ReportEntry
  | [] => []
  | result :: rest =>
    (match result.result with
     | true => ReportEntry.success (get_test_case_name result) 0
     | false => ReportEntry.failure (get_test_case_name result) 0 "assert_eq" "not equal")
    :: generate_test_report rest

/-- Helper for Path::file_name: the characters after the last path separator. -/
def lastComponentAux (acc : List Char) : List Char → List Char
  | [] => acc.reverse
  | c :: rest =>
    if c = '/' then lastComponentAux [] rest else lastComponentAux (c :: acc) rest

/-- Path::new(path).file_name().unwrap().to_str().unwrap() (main.rs 61-66):
the final component of the path. Modelled for paths with a nonempty final
component (file_name() is None, and unwrap panics, for paths such as a bare
dot-dot or a trailing separator; those are outside the modelled domain). -/
def file_name (p : String) : String := ⟨lastComponentAux [] p.data⟩

/-- str::replace(pat, repl) specialised at the literal arguments of main.rs 66:
pattern dot-c-s-v, empty replacement; leftmost non-overlapping occurrences are
removed. -/
def removeCsv : List Char → List Char
  | '.' :: 'c' :: 's' :: 'v' :: rest => removeCsv rest
  | c :: rest => c :: removeCsv rest
  | [] => []

/-- test_case_input_file_name (main.rs 61-66): the file name of the test-case
path with every occurrence of the substring dot-csv removed. -/
def test_case_input_file_name (path : String) : String :=
  ⟨removeCsv (file_name path).data⟩

/-- The report target (main.rs 119): File::create of
./{identifier}.robots-test-results.xml in the current working directory. -/
def report_file_path (path : String) : String :=
  "./" ++ test_case_input_file_name path ++ ".robots-test-results.xml"

/-- Helper for the specification-side identifier: the characters before the
last dot of the list, or none when the list has no dot. -/
def beforeLastDot : List Char → Option (List Char)
  | [] => none
  | c :: rest =>
    match beforeLastDot rest with
    | some l => some (c :: l)
    | none => if c = '.' then some [] else none

/-- Specification-side definition for claim C9, following the words of the
spec (§4.5): the report identifier is the input file name sans extension —
the portion of the name before its final dot, the whole name when it has no
dot. Written only to be compared with the code-side definition
test_case_input_file_name. -/
def stripExtensionSpec (name : String) : String :=
  match beforeLastDot name.data with
  | some l => ⟨l⟩
  | none => name

/-- Specification-side report identifier for claim C9: the file name of the
path with its extension removed. -/
def report_identifier_spec (path : String) : String :=
  stripExtensionSpec (file_name path)

/-- Claim C1, counterexample: the evaluation does not apply the decision
function to the user_agent of the definition. With the policy that allows
exactly the agent googlebot and a definition whose user_agent is otherbot,
the code computes passed = true (the decision is taken for the fixed agent
googlebot configured at Robot::new), while the formula of the claim
decide(def.user_agent, def.url) == expected yields false. -/
theorem C1_counterexample :
    (evalCase (Robot.new "googlebot" (fun ua _ => ua == "googlebot"))
        { user_agent := "otherbot", url := "/x", expected_result := true }).result
      ≠ ((fun (ua : String) (_ : String) => ua == "googlebot") "otherbot" "/x" == true) := by
  decide

/-- Claim C1 (amended): for every test-case definition in the loaded sequence,
the Evaluation Engine produces an outcome whose passed flag equals
(decide("googlebot", def.url) == def.expected_result) — the decision function
applied to the fixed user agent configured at policy construction and the
url of the definition itself; the per-definition user_agent is not passed to the
decision. -/
theorem C1_passed_uses_fixed_agent (policy : String → String → Bool)
    (defs : List TestCaseDefinition) (i : Nat) :
    ((runTests (Robot.new "googlebot" policy) defs)[i]?).map (fun o => o.result)
      = (defs[i]?).map (fun d => policy "googlebot" d.url == d.expected_result) := by
  cases h : defs[i]? with
  | none => simp [runTests, h]
  | some d => simp [runTests, h, evalCase, Robot.new]

/-- Claim C2: the outcome sequence has the same length as the input sequence,
and the outcome at each position carries the same user_agent, url and
expected_result as its source definition. -/
theorem C2_outcome_traceability (r : Robot) (defs : List TestCaseDefinition) :
    (runTests r defs).length = defs.length ∧
    ∀ i : Nat,
      ((runTests r defs)[i]?).map (fun o => (o.user_agent, o.url, o.expected_result))
        = (defs[i]?).map (fun d => (d.user_agent, d.url, d.expected_result)) := by
  refine ⟨by simp [runTests], fun i => ?_⟩
  cases h : defs[i]? with
  | none => simp [runTests, h]
  | some d => simp [runTests, h, evalCase]

/-- Claim C3: for every outcome sequence the summary satisfies
failed = total - passed with passed ≤ total (so the usize subtraction does not
underflow and failed + passed = total), and the empty sequence yields
total = 0, passed = 0, failed = 0. -/
theorem C3_summary_invariant (outs : List TestCaseOutput) :
    failed_test_count outs = total_test_count outs - passed_test_count outs ∧
    passed_test_count outs ≤ total_test_count outs ∧
    passed_test_count outs + failed_test_count outs = total_test_count outs ∧
    total_test_count ([] : List TestCaseOutput) = 0 ∧
    passed_test_count ([] : List TestCaseOutput) = 0 ∧
    failed_test_count ([] : List TestCaseOutput) = 0 := by
  have hle : passed_test_count outs ≤ total_test_count outs :=
    List.length_filter_le _ _
  refine ⟨rfl, hle, ?_, rfl, rfl, rfl⟩
  unfold failed_test_count
  omega

/-- Claim C4: the run ends with a failing process status exactly when the
failed count is positive or the test-case file failed to load, and an empty
test-case file yields a successful exit. -/
theorem C4_exit_status_law (content : Option (List (List String)))
    (policy : String → String → Bool) :
    (exit_is_failure (runHarness content policy)
      = (load_failed content || (run_failed_count content policy != 0))) ∧
    runHarness (some []) policy = .exited .success := by
  refine ⟨?_, rfl⟩
  unfold runHarness load_failed run_failed_count
  cases hgc : get_test_cases content with
  | ok defs =>
    simp only []
    by_cases hf : failed_test_count (runTests (Robot.new "googlebot" policy) defs) > 0
    · simp [hf, exit_is_failure]
      omega
    · simp [hf, exit_is_failure]
      omega
  | err e => simp [exit_is_failure]
  | panicked => simp [exit_is_failure]

/-- Claim C10: the per-case user_agent field has no influence on the decision
or the passed flag — two definitions with the same url and the same
expected_result produce the same actual decision and the same passed flag,
whatever the policy, because the decision queries the Robot fixed at the
agent googlebot with the url only. -/
theorem C10_user_agent_no_influence (policy : String → String → Bool)
    (d1 d2 : TestCaseDefinition)
    (hurl : d1.url = d2.url) (hexp : d1.expected_result = d2.expected_result) :
    (Robot.new "googlebot" policy).allowed d1.url
      = (Robot.new "googlebot" policy).allowed d2.url ∧
    (evalCase (Robot.new "googlebot" policy) d1).result
      = (evalCase (Robot.new "googlebot" policy) d2).result := by
  constructor
  · rw [hurl]
  · simp [evalCase, hurl, hexp]

/-- Claim C10, witness: a policy that reads its agent argument, and two
definitions differing only in user_agent, get the same passed flag. -/
theorem C10_witness :
    (evalCase (Robot.new "googlebot" (fun ua url => ua == "googlebot" && url == "/a"))
      { user_agent := "alpha", url := "/a", expected_result := true }).result
      = (evalCase (Robot.new "googlebot" (fun ua url => ua == "googlebot" && url == "/a"))
          { user_agent := "beta", url := "/a", expected_result := true }).result :=
  (C10_user_agent_no_influence (fun ua url => ua == "googlebot" && url == "/a")
    { user_agent := "alpha", url := "/a", expected_result := true }
    { user_agent := "beta", url := "/a", expected_result := true } rfl rfl).2

/-- Claim C5, counterexample: the first row is not parsed as an ordinary data
row. A file whose first row carries the literal header token expected_result
in its third column — a token that fails lenient-boolean parsing — loads
successfully, and the loaded sequence contains only the second row: the csv
reader consumed the first row as a header. Under the claim this input would
have failed boolean parsing. -/
theorem C5_counterexample :
    parseLenientBool "expected_result" = none ∧
    get_test_cases (some [["user_agent", "url", "expected_result"], ["bot", "/x", "true"]])
      = .ok [{ user_agent := "bot", url := "/x", expected_result := true }] := by
  decide

/-- Claim C5 (amended): the Test Case Loader does special-case a header row:
the first row of the file is always consumed as a header and never parsed as a
data row — the load result depends on the first row only through its field
count (which sets the expected count for the remaining rows). -/
theorem C5_first_row_is_header (h1 h2 : List String) (rest : List (List String))
    (hlen : h1.length = h2.length) :
    get_test_cases (some (h1 :: rest)) = get_test_cases (some (h2 :: rest)) := by
  simp [get_test_cases, hlen]

/-- Claim C5, witness: replacing the literal header row by any other three
fields leaves the load result unchanged. -/
theorem C5_witness :
    get_test_cases (some (["user_agent", "url", "expected_result"] :: [["bot", "/x", "1"]]))
      = get_test_cases (some (["a", "b", "c"] :: [["bot", "/x", "1"]])) :=
  C5_first_row_is_header ["user_agent", "url", "expected_result"] ["a", "b", "c"]
    [["bot", "/x", "1"]] (by decide)

/-- Claim C6: evaluation of the code at the failing input. A file whose second
row has the unparseable third field banana does not yield a returned
InvalidBoolean error value: get_test_cases panics at
record[2].parse::<LenientBool>().unwrap() (main.rs 156), aborting the process
instead of reporting a recoverable load error. -/
theorem C6_invalid_boolean_panics :
    parseLenientBool "banana" = none ∧
    get_test_cases (some [["user_agent", "url", "expected_result"], ["bot", "/private", "banana"]])
      = .panicked ∧
    runHarness (some [["user_agent", "url", "expected_result"], ["bot", "/private", "banana"]])
      (fun _ _ => true) = .panicked := by
  decide

/-- Claim C7, counterexample: a file whose only row has two columns does not
fail to load — the two-column row is consumed as the header, the record set is
empty, the load returns zero test cases and the process exits with success. -/
theorem C7_counterexample :
    get_test_cases (some [["a", "b"]]) = .ok [] ∧
    runHarness (some [["a", "b"]]) (fun _ _ => true) = .exited .success := by
  decide

/-- Records of length three whose third field parses, followed by a record of
a different length, drive parseRecords to the UnequalLengths error. -/
theorem parseRecords_good_then_bad (good : List (List String)) (bad : List String)
    (tail : List (List String))
    (hgood : ∀ r ∈ good, r.length = 3 ∧ (parseLenientBool (r.getD 2 "")).isSome = true)
    (hbad : bad.length ≠ 3) :
    parseRecords 3 (good ++ bad :: tail) = .err .malformedRow := by
  induction good with
  | nil => simp [parseRecords, hbad]
  | cons r rest ih =>
    obtain ⟨hr3, hrb⟩ := hgood r (List.mem_cons_self r rest)
    obtain ⟨b, hb⟩ := Option.isSome_iff_exists.mp hrb
    have ihr := ih (fun q hq => hgood q (List.mem_cons_of_mem r hq))
    simp only [List.cons_append, parseRecords, hr3, hb, List.append_eq, ihr]
    simp

/-- Claim C7 (amended): for every input file whose first row has three fields,
and in which a row of a different field count (for example two columns) is
preceded only by well-formed rows (three fields, parseable third field), the
load fails with the malformed-row (csv UnequalLengths) error, no evaluation
occurs, and the process exits with failure status. (The claim does not hold
of the first row itself: the first row is consumed as the header, so a file
whose only row is malformed loads as zero cases — see the counterexample.) -/
theorem C7_malformed_row_fails (header bad : List String)
    (good tail : List (List String)) (policy : String → String → Bool)
    (hh : header.length = 3)
    (hgood : ∀ r ∈ good, r.length = 3 ∧ (parseLenientBool (r.getD 2 "")).isSome = true)
    (hbad : bad.length ≠ 3) :
    get_test_cases (some (header :: (good ++ bad :: tail))) = .err .malformedRow ∧
    runHarness (some (header :: (good ++ bad :: tail))) policy = .exited .failure := by
  have hload : get_test_cases (some (header :: (good ++ bad :: tail)))
      = .err .malformedRow := by
    simp [get_test_cases, hh, parseRecords_good_then_bad good bad tail hgood hbad]
  refine ⟨hload, ?_⟩
  simp [runHarness, hload]

/-- Claim C7, witness: a concrete file with a three-field header, one valid
data row, then a two-field row, fails to load and exits with failure. -/
theorem C7_witness :
    get_test_cases (some (["a", "b", "c"] :: ([["ua", "/x", "true"]] ++ ["p", "q"] :: [])))
      = .err .malformedRow ∧
    runHarness (some (["a", "b", "c"] :: ([["ua", "/x", "true"]] ++ ["p", "q"] :: [])))
      (fun _ _ => true) = .exited .failure :=
  C7_malformed_row_fails ["a", "b", "c"] ["p", "q"] [["ua", "/x", "true"]] []
    (fun _ _ => true) (by decide) (by decide) (by decide)

/-- The report loop builds exactly the per-outcome entry map. -/
theorem generate_test_report_eq_map (outs : List TestCaseOutput) :
    generate_test_report outs = outs.map (fun o =>
      if o.result then ReportEntry.success (get_test_case_name o) 0
      else ReportEntry.failure (get_test_case_name o) 0 "assert_eq" "not equal") := by
  induction outs with
  | nil => rfl
  | cons o rest ih =>
    cases h : o.result <;> simp [generate_test_report, h, ih]

/-- Claim C8: the Report Emitter emits exactly one entry per outcome; the
entry name is Accessing URL: url as user_agent should be allowed-or-denied,
with allowed exactly when expected_result is true; a passing outcome gives a
success entry with zero duration, a failing outcome gives a failure entry
with assertion kind assert_eq and message not-equal. -/
theorem C8_report_entries (outs : List TestCaseOutput) :
    (generate_test_report outs).length = outs.length ∧
    ∀ i : Nat, (generate_test_report outs)[i]? = (outs[i]?).map (fun o =>
      if o.result then
        ReportEntry.success ("Accessing URL: " ++ o.url ++ " as " ++ o.user_agent
          ++ " should be " ++ (if o.expected_result then "allowed" else "denied")) 0
      else
        ReportEntry.failure ("Accessing URL: " ++ o.url ++ " as " ++ o.user_agent
          ++ " should be " ++ (if o.expected_result then "allowed" else "denied"))
          0 "assert_eq" "not equal") := by
  rw [generate_test_report_eq_map]
  refine ⟨by simp, fun i => ?_⟩
  cases h : outs[i]? with
  | none => simp [h]
  | some o => simp [h, get_test_case_name]

/-- Characters with no separator form a single path component. -/
theorem lastComponentAux_no_slash (l : List Char) :
    ∀ acc : List Char, (∀ c ∈ l, c ≠ '/') →
      lastComponentAux acc l = acc.reverse ++ l := by
  induction l with
  | nil => intro acc _; simp [lastComponentAux]
  | cons c rest ih =>
    intro acc h
    have hc : c ≠ '/' := h c (List.mem_cons_self c rest)
    have hrest : ∀ d ∈ rest, d ≠ '/' := fun d hd => h d (List.mem_cons_of_mem c hd)
    simp [lastComponentAux, hc, ih (c :: acc) hrest]

/-- Removing dot-csv occurrences from a dot-free stem followed by the
dot-csv suffix yields the stem. -/
theorem removeCsv_stem_append (l : List Char) (h : ∀ c ∈ l, c ≠ '.') :
    removeCsv (l ++ ['.', 'c', 's', 'v']) = l := by
  induction l with
  | nil => rfl
  | cons c rest ih =>
    have hc : c ≠ '.' := h c (List.mem_cons_self c rest)
    have hrest : ∀ d ∈ rest, d ≠ '.' := fun d hd => h d (List.mem_cons_of_mem c hd)
    rw [List.cons_append, removeCsv.eq_def]
    split
    · rename_i heq
      injection heq with h1 h2
      exact absurd h1 hc
    · rename_i heq
      injection heq with h1 h2
      rw [← h1, ← h2, ih hrest]
    · rename_i heq
      simp at heq

/-- The characters before the last dot of a list ending in the dot-csv
suffix are exactly the characters before that suffix. -/
theorem beforeLastDot_append_csv (l : List Char) :
    beforeLastDot (l ++ ['.', 'c', 's', 'v']) = some l := by
  induction l with
  | nil => rfl
  | cons c rest ih => simp [beforeLastDot, ih]

/-- Claim C9, counterexample: the report identifier is not the file name with
its extension removed — the code removes occurrences of the literal substring
dot-csv instead. For the input file cases.txt the code-side identifier keeps
the extension, while the specified identifier strips it; the report would be
written to ./cases.txt.robots-test-results.xml. -/
theorem C9_counterexample :
    test_case_input_file_name "cases.txt" = "cases.txt" ∧
    report_identifier_spec "cases.txt" = "cases" ∧
    test_case_input_file_name "cases.txt" ≠ report_identifier_spec "cases.txt" ∧
    report_file_path "cases.txt" = "./cases.txt.robots-test-results.xml" := by
  decide

/-- Claim C9 (amended): the report identifier is the input file name with
every occurrence of the substring dot-csv removed, and the report is written
to ./{identifier}.robots-test-results.xml in the current working directory;
for the intended inputs — a file name made of a dot-free, separator-free stem
followed by the single extension dot-csv — this coincides with the name sans
extension. -/
theorem C9_report_path (stem : String)
    (hdot : ∀ c ∈ stem.data, c ≠ '.') (hslash : ∀ c ∈ stem.data, c ≠ '/') :
    report_file_path (stem ++ ".csv") = "./" ++ stem ++ ".robots-test-results.xml" ∧
    test_case_input_file_name (stem ++ ".csv") = report_identifier_spec (stem ++ ".csv") := by
  have hdata : (stem ++ ".csv").data = stem.data ++ ['.', 'c', 's', 'v'] :=
    String.data_append ..
  have hnoslash : ∀ c ∈ (stem ++ ".csv").data, c ≠ '/' := by
    rw [hdata]
    intro c hc
    rcases List.mem_append.mp hc with h | h
    · exact hslash c h
    · simp only [List.mem_cons, List.not_mem_nil, or_false] at h
      rcases h with rfl | rfl | rfl | rfl <;> decide
  have hfile : file_name (stem ++ ".csv") = stem ++ ".csv" := by
    unfold file_name
    rw [lastComponentAux_no_slash _ [] hnoslash]
    rfl
  have hid : test_case_input_file_name (stem ++ ".csv") = stem := by
    unfold test_case_input_file_name
    rw [hfile, hdata, removeCsv_stem_append stem.data hdot]
  have hspec : report_identifier_spec (stem ++ ".csv") = stem := by
    unfold report_identifier_spec stripExtensionSpec
    rw [hfile, hdata, beforeLastDot_append_csv]
  constructor
  · unfold report_file_path
    rw [hid]
  · rw [hid, hspec]

/-- Claim C9, witness: for the file name cases.csv the report goes to
./cases.robots-test-results.xml, and the code-side identifier agrees with
the specified name-sans-extension identifier. -/
theorem C9_witness :
    report_file_path ("cases" ++ ".csv") = "./" ++ "cases" ++ ".robots-test-results.xml" ∧
    test_case_input_file_name ("cases" ++ ".csv") = report_identifier_spec ("cases" ++ ".csv") :=
  C9_report_path "cases" (by decide) (by decide)

end RobotsTxtTester
